import Mathlib

/-!
Shallow embedding of `pyspkac/spkac.py` (class `SPKAC`).

The external collaborators (the pyasn1 DER codec, base64, the M2Crypto
key-loading and signature-verification primitives, and the X509
certificate object model) are out of scope of the core and are modelled
as abstract parameters: `der_encode`, `b64encode`, `load_pub_key_bio`,
`verify_final`, `cert_verify`, `check_ca`.  The embedding starts at the
point where `der_decode (b64decode b64val)` has produced an ASN.1 value
`sq` together with the undecoded remainder `rest` (spkac.py line 155),
and follows the source line by line from there.

ASN.1 values are modelled by the inductive `Asn1`.  A bare INTEGER node
is not modelled: pyasn1 `Integer` has no `len`, so the source's shape
checks would raise `TypeError` on it; every node of `Asn1` supports the
`len`/`getitem`/truthiness operations the source uses.
-/

set_option maxHeartbeats 1000000

/-- ASN.1 values as produced by the pyasn1 DER decoder, restricted to the
node kinds the SPKAC structure uses: constructed sequences, object
identifiers (their arcs), character strings, bit strings (modelled by the
byte string `Bitstring (...).as_string ()` would extract), and NULL. -/
inductive Asn1 : Type where
  | seq (elems : List Asn1)
  | oid (arcs : List Nat)
  | str (s : String)
  | bits (bytes : List Nat)
  | null

/-- Python `len` on a pyasn1 value (number of components for a sequence,
number of arcs for an OID, length for string-like values, 0 for NULL). -/
def Asn1.len : Asn1 → Nat
  | .seq xs => xs.length
  | .oid arcs => arcs.length
  | .str s => s.length
  | .bits bs => bs.length
  | .null => 0

/-- Python indexing `v [i]` on a pyasn1 sequence.  The source only indexes
after its shape checks, so out-of-range and non-sequence indexing
(irrelevant, guarded positions) default to NULL. -/
def Asn1.get : Asn1 → Nat → Asn1
  | .seq xs, i => xs.getD i .null
  | _, _ => .null

/-- Python truthiness of a pyasn1 value (`if seq [1][1] :`): all the
modelled node kinds report their `len`, so truthy iff non-empty; NULL has
empty value and is falsy. -/
def Asn1.truthy : Asn1 → Bool
  | .seq xs => !xs.isEmpty
  | .oid arcs => !arcs.isEmpty
  | .str s => !s.isEmpty
  | .bits bs => !bs.isEmpty
  | .null => false

/-- Python `tuple (seq [1][0])` on the decoded algorithm OID: the tuple of
its integer arcs.  (The source only applies this to the OID node of a
well-formed structure; other nodes are not iterated.) -/
def Asn1.toTuple : Asn1 → List Nat
  | .oid arcs => arcs
  | _ => []

/-- `Bitstring (seq [2]).as_string ()`: the byte content of a BIT STRING. -/
def Asn1.as_string : Asn1 → List Nat
  | .bits bs => bs
  | _ => []

/-- Python `%s` rendering of a pyasn1 value inside an error message; for
the character-string nodes the source formats this is the text itself. -/
def Asn1.pyStr : Asn1 → String
  | .str s => s
  | _ => ""

/-- Python `challenge != self.challenge` (negated): a Python `str` equals a
pyasn1 value iff the value is a character string with the same content. -/
def Asn1.eqStr : Asn1 → String → Bool
  | .str t, s => t == s
  | _, _ => false

/-- The Python exception classes raised by spkac.py: `SPKAC_Decode_Error`
(a `ValueError` subclass, line 35), `RuntimeError` (line 183) and
`AssertionError` (the `assert` statements, lines 228 and 229). -/
inductive ErrKind : Type where
  | SPKAC_Decode_Error
  | runtimeError
  | assertionError
deriving DecidableEq, Repr

/-- A raised Python exception: its class and its message. -/
structure PyExc where
  kind : ErrKind
  msg : String
deriving DecidableEq, Repr

/-- Extract a raised exception from a result, if any. -/
def errOf {α : Type} : Except PyExc α → Option PyExc
  | .error e => some e
  | .ok _ => none

/-- Whether a result is a success. -/
def isOkE {α : Type} : Except PyExc α → Bool
  | .ok _ => true
  | .error _ => false

/-- The X509_Name subject container, modelled as the list of
(attribute short-name, value) pairs that were assigned on it. -/
abbrev Subject := List (String × String)

/-- The certificate object gen_crt builds (spkac.py lines 217 to 227):
every field the source sets on the fresh `X509.X509 ()` object, with the
final `cert.sign (pkey = ca_pkey, md = 'sha1')` recorded in
`sign_key`/`sign_md`.  `PKey` and `Ext` are the opaque external key and
extension object types. -/
structure Cert (PKey Ext : Type) where
  version : Nat
  serial : Int
  not_before : Int
  not_after : Int
  pubkey : PKey
  subject : Subject
  issuer : Subject
  extensions : List Ext
  sign_key : PKey
  sign_md : String

/-- The attributes a successfully constructed SPKAC object holds
(spkac.py lines 164 to 191), plus the `cert` attribute set later by
gen_crt (line 217), `none` until then. -/
structure SPKACState (PKey Ext : Type) where
  signed : List Nat
  spki : Asn1
  challenge : Asn1
  sig_algo : List Nat
  signature : List Nat
  pkey : PKey
  hash : String
  extensions : List Ext
  subject : Subject
  cert : Option (Cert PKey Ext)

/-- The class attribute `SPKAC.signature_algorithms` (lines 124 to 126):
a table from OID tuple to (module, assignment method name, digest name);
the single pre-populated entry is RSA with MD5. -/
def SPKAC.signature_algorithms : List (List Nat × (String × String × String)) :=
  [([1, 2, 840, 113549, 1, 1, 4], ("RSA", "assign_rsa", "md5"))]

/-- The class attribute `SPKAC.hash_algorithms` (lines 129 to 131). -/
def SPKAC.hash_algorithms : List (List Nat × String) :=
  [([1, 3, 14, 3, 2, 26], "sha1")]

/-- `SPKAC._as_pem` (lines 241 to 257) on already-DER bytes: base64 encode
and wrap in BEGIN/END lines.  `b64encode` is the external
`base64.encodestring`. -/
def SPKAC._as_pem (b64encode : List Nat → String) (asn1val : List Nat)
    (header : String) : String :=
  "-----BEGIN " ++ header ++ "-----\n" ++ b64encode asn1val
    ++ "-----END " ++ header ++ "-----\n"

/-- `SPKAC._compute_public_key_` (lines 259 to 283): look the OID tuple up
in `signature_algorithms`, raising `SPKAC_Decode_Error` when absent; wrap
the DER of the spki in a PEM "PUBLIC KEY" envelope, load the public key
from it via the registry's module (`load_pub_key_bio`, external), and
return the key handle together with the registry's digest name. -/
def SPKAC._compute_public_key_ {PKey : Type}
    (b64encode : List Nat → String)
    (der_encode : Asn1 → List Nat)
    (load_pub_key_bio : String → PKey)
    (spki : Asn1) (sig_algo : List Nat) : Except PyExc (PKey × String) :=
  match SPKAC.signature_algorithms.find? (fun e => e.1 == sig_algo) with
  | none => .error ⟨.SPKAC_Decode_Error, "Unknown signature algorithm"⟩
  | some entry =>
      let buf := SPKAC._as_pem b64encode (der_encode spki) "PUBLIC KEY"
      .ok (load_pub_key_bio buf, entry.2.2.2)

/-- `SPKAC.push_extension` (lines 233 to 239): push onto the extension
stack (M2Crypto's stack appends at the end and iterates in push order). -/
def SPKAC.push_extension {PKey Ext : Type} (st : SPKACState PKey Ext)
    (ext : Ext) : SPKACState PKey Ext :=
  { st with extensions := st.extensions ++ [ext] }

/-- The guard `if challenge and challenge != self.challenge :` (line 169):
Python truthiness of the optional challenge string, and content equality
between a Python str and the decoded pyasn1 challenge value. -/
def SPKAC.challenge_mismatch (challenge : Option String) (chal : Asn1) : Bool :=
  match challenge with
  | none => false
  | some c => !c.isEmpty && !(chal.eqStr c)

/-- The message built on lines 170 to 171. -/
def SPKAC.challenge_mismatch_msg (got : String) (expect : Asn1) : String :=
  "Challenge doesn\x27t match: got \"" ++ got ++ "\" expect \""
    ++ expect.pyStr ++ "\""

/-- `SPKAC.__init__` (lines 133 to 192), starting after
`der_decode (b64decode b64val)` produced the value `sq` and remainder
`rest`.  `der_encode` is the external pyasn1 DER encoder, `verify_final`
the external M2Crypto verification pipeline
(`reset_context (md = hash)` / `verify_init` / `verify_update (signed)` /
`verify_final (signature)`) as a function of the key handle, digest name,
signed bytes and signature bytes. -/
def SPKAC.init {PKey Ext : Type}
    (der_encode : Asn1 → List Nat)
    (b64encode : List Nat → String)
    (load_pub_key_bio : String → PKey)
    (verify_final : PKey → String → List Nat → List Nat → Int)
    (sq : Asn1) (rest : List Nat)
    (challenge : Option String)
    (extensions : List Ext)
    (kw : Subject) : Except PyExc (SPKACState PKey Ext) :=
  if rest ≠ [] then
    .error ⟨.SPKAC_Decode_Error, "ASN.1 decode: data after SPKAC value"⟩
  else if sq.len ≠ 3 ∨ (sq.get 0).len ≠ 2 ∨ (sq.get 1).len ≠ 2 then
    .error ⟨.SPKAC_Decode_Error, "Unknown SPKAC data format"⟩
  else if ((sq.get 1).get 1).truthy then
    .error ⟨.SPKAC_Decode_Error, "Invalid Public Key Info"⟩
  else
    let signed := der_encode (sq.get 0)
    let spki := (sq.get 0).get 0
    let chal := (sq.get 0).get 1
    let sig_algo := ((sq.get 1).get 0).toTuple
    let signature := (sq.get 2).as_string
    if SPKAC.challenge_mismatch challenge chal then
      .error ⟨.SPKAC_Decode_Error,
        SPKAC.challenge_mismatch_msg (challenge.getD "") chal⟩
    else
      match SPKAC._compute_public_key_ b64encode der_encode load_pub_key_bio
          spki sig_algo with
      | .error e => .error e
      | .ok pk =>
        let r := verify_final pk.1 pk.2 signed signature
        if r < 0 then
          .error ⟨.SPKAC_Decode_Error, "Error during signature verification"⟩
        else if r = 0 then
          .error ⟨.SPKAC_Decode_Error, "Invalid signature"⟩
        else if r ≠ 1 then
          .error ⟨.runtimeError,
            "Unexpected verify_final return code: " ++ toString r⟩
        else
          let st0 : SPKACState PKey Ext :=
            { signed := signed, spki := spki, challenge := chal
            , sig_algo := sig_algo, signature := signature
            , pkey := pk.1, hash := pk.2
            , extensions := [], subject := [], cert := none }
          .ok { extensions.foldl SPKAC.push_extension st0 with subject := kw }

/-- Python truthiness of the optional `not_before` / `not_after`
arguments of gen_crt (`if not not_before :`, line 208): `None` and `0`
are falsy. -/
def pyFalsyIntOpt : Option Int → Bool
  | none => true
  | some v => v == 0

/-- The certificate gen_crt assembles and signs (lines 208 to 227):
validity defaulting, version 2 (meaning X.509 v3), serial, public key,
subject, issuer copied from the CA certificate's subject, the extension
stack in order, signed with the CA key and fixed digest sha1.
`time_time` models `long (time.time ())` and `time_timezone` models
`time.timezone` at the moment of the call. -/
def SPKAC.gen_crt_cert {PKey Ext : Type}
    (st : SPKACState PKey Ext)
    (time_time time_timezone : Int)
    (ca_pkey : PKey) (ca_subject : Subject) (serial : Int)
    (not_before not_after : Option Int) : Cert PKey Ext :=
  let nb := if pyFalsyIntOpt not_before then time_time + time_timezone
            else not_before.getD 0
  let na := if pyFalsyIntOpt not_after then nb + 60 * 60 * 24 * 365
            else not_after.getD 0
  { version := 2, serial := serial, not_before := nb, not_after := na
  , pubkey := st.pkey, subject := st.subject, issuer := ca_subject
  , extensions := st.extensions, sign_key := ca_pkey, sign_md := "sha1" }

/-- `SPKAC.gen_crt` (lines 194 to 231).  `self.cert = cert` (line 217)
stores the certificate object on the instance before the two `assert`
statements run, so the state update happens regardless of their outcome;
`cert_verify` and `check_ca` are the external `cert.verify (ca_pkey)` and
`cert.check_ca ()`.  The result is the updated object state paired with
the returned certificate or the raised AssertionError. -/
def SPKAC.gen_crt {PKey Ext : Type}
    (cert_verify : Cert PKey Ext → PKey → Bool)
    (check_ca : Cert PKey Ext → Bool)
    (st : SPKACState PKey Ext)
    (time_time time_timezone : Int)
    (ca_pkey : PKey) (ca_subject : Subject) (serial : Int)
    (not_before not_after : Option Int) :
    SPKACState PKey Ext × Except PyExc (Cert PKey Ext) :=
  let cert := SPKAC.gen_crt_cert st time_time time_timezone ca_pkey
    ca_subject serial not_before not_after
  let st2 := { st with cert := some cert }
  if cert_verify cert ca_pkey = false then
    (st2, .error ⟨.assertionError, "cert.verify (ca_pkey)"⟩)
  else if check_ca cert = true then
    (st2, .error ⟨.assertionError, "not cert.check_ca ()"⟩)
  else
    (st2, .ok cert)

/-! Concrete fixtures used by witnesses and counterexamples.  `exGood` is
a well-shaped SignedPublicKeyAndChallenge value: its PublicKeyAndChallenge
carries a SubjectPublicKeyInfo whose key-bits BIT STRING is non-empty (as
in every real SPKAC), and the outer signatureAlgorithm AlgorithmIdentifier
carries the RSA-with-MD5 OID with NULL parameters. -/

def exSpkiAlg : Asn1 := .seq [.oid [1, 2, 840, 113549, 1, 1, 1], .null]

def exSpki : Asn1 := .seq [exSpkiAlg, .bits [48, 72, 2, 65]]

def exPkac : Asn1 := .seq [exSpki, .str "chal"]

def exAlgId : Asn1 := .seq [.oid [1, 2, 840, 113549, 1, 1, 4], .null]

def exGood : Asn1 := .seq [exPkac, exAlgId, .bits [9, 9]]

/-- A variant whose SubjectPublicKeyInfo key-bits element is EMPTY but
whose outer AlgorithmIdentifier second component is non-empty. -/
def exSpkiEmpty : Asn1 := .seq [exSpkiAlg, .bits []]

def exPkacEmpty : Asn1 := .seq [exSpkiEmpty, .str "chal"]

def exAlgIdParams : Asn1 := .seq [.oid [1, 2, 840, 113549, 1, 1, 4], .str "p"]

def exBadParams : Asn1 := .seq [exPkacEmpty, exAlgIdParams, .bits [9, 9]]

/-- A 2-element outer sequence (wrong shape). -/
def exTwoElem : Asn1 := .seq [exPkac, exAlgId]

/-- Concrete stand-ins for the external collaborators. -/
def exDer : Asn1 → List Nat := fun _ => [7, 7]

def exB64 : List Nat → String := fun _ => "QUJD\n"

def exLoad : String → Unit := fun _ => ()

def exVerifyOk : Unit → String → List Nat → List Nat → Int := fun _ _ _ _ => 1

/-! Helper lemmas about the possible error messages. -/

theorem challenge_mismatch_msg_length (g : String) (c : Asn1) :
    (SPKAC.challenge_mismatch_msg g c).length
      = 41 + g.length + c.pyStr.length := by
  rw [SPKAC.challenge_mismatch_msg]
  simp only [String.length_append]
  have h1 : ("Challenge doesn\x27t match: got \"" : String).length = 30 := by
    decide
  have h2 : ("\" expect \"" : String).length = 10 := by decide
  have h3 : ("\"" : String).length = 1 := by decide
  omega

theorem challenge_mismatch_msg_long (g : String) (c : Asn1) (s : String)
    (hs : s.length < 41) : SPKAC.challenge_mismatch_msg g c ≠ s := by
  intro h
  have hl := congrArg String.length h
  rw [challenge_mismatch_msg_length] at hl
  omega

theorem decode_kind_ne_runtime : ErrKind.SPKAC_Decode_Error ≠ ErrKind.runtimeError := by
  decide

theorem init_invalid_pki {PKey Ext : Type}
    (de : Asn1 → List Nat) (be : List Nat → String) (lo : String → PKey)
    (vf : PKey → String → List Nat → List Nat → Int)
    (sq : Asn1) (challenge : Option String) (exts : List Ext) (kw : Subject)
    (h2 : sq.len = 3) (h3 : (sq.get 0).len = 2) (h4 : (sq.get 1).len = 2)
    (h5 : ((sq.get 1).get 1).truthy = true) :
    SPKAC.init de be lo vf sq [] challenge exts kw
      = .error ⟨.SPKAC_Decode_Error, "Invalid Public Key Info"⟩ := by
  rw [SPKAC.init, if_neg (by simp), if_neg (by simp [h2, h3, h4]), if_pos h5]

theorem init_error_cases {PKey Ext : Type}
    (de : Asn1 → List Nat) (be : List Nat → String) (lo : String → PKey)
    (vf : PKey → String → List Nat → List Nat → Int)
    (sq : Asn1) (challenge : Option String) (exts : List Ext) (kw : Subject)
    (h2 : sq.len = 3) (h3 : (sq.get 0).len = 2) (h4 : (sq.get 1).len = 2)
    (h5 : ((sq.get 1).get 1).truthy = false)
    (e : PyExc)
    (h : SPKAC.init de be lo vf sq [] challenge exts kw = .error e) :
    (∃ g c, e = ⟨.SPKAC_Decode_Error, SPKAC.challenge_mismatch_msg g c⟩) ∨
    e = ⟨.SPKAC_Decode_Error, "Unknown signature algorithm"⟩ ∨
    e = ⟨.SPKAC_Decode_Error, "Error during signature verification"⟩ ∨
    e = ⟨.SPKAC_Decode_Error, "Invalid signature"⟩ ∨
    e.kind = .runtimeError := by
  rw [SPKAC.init, if_neg (by simp), if_neg (by simp [h2, h3, h4]),
    if_neg (by simp [h5])] at h
  dsimp only at h
  split at h
  · injection h with h'
    exact Or.inl ⟨challenge.getD "", (sq.get 0).get 1, h'.symm⟩
  · split at h
    · rename_i e1 heq
      rw [SPKAC._compute_public_key_] at heq
      split at heq
      · injection h with h'
        injection heq with h''
        exact Or.inr (Or.inl (h'.symm.trans h''.symm))
      · exact Except.noConfusion heq
    · split at h
      · injection h with h'
        exact Or.inr (Or.inr (Or.inl h'.symm))
      · split at h
        · injection h with h'
          exact Or.inr (Or.inr (Or.inr (Or.inl h'.symm)))
        · split at h
          · injection h with h'
            exact Or.inr (Or.inr (Or.inr (Or.inr (h' ▸ rfl))))
          · exact Except.noConfusion h

theorem init_no_structural_msgs {PKey Ext : Type}
    (de : Asn1 → List Nat) (be : List Nat → String) (lo : String → PKey)
    (vf : PKey → String → List Nat → List Nat → Int)
    (sq : Asn1) (challenge : Option String) (exts : List Ext) (kw : Subject)
    (h2 : sq.len = 3) (h3 : (sq.get 0).len = 2) (h4 : (sq.get 1).len = 2)
    (s : String) (hs : s.length < 41)
    (hs1 : s ≠ "Unknown signature algorithm")
    (hs2 : s ≠ "Error during signature verification")
    (hs3 : s ≠ "Invalid signature")
    (hs4 : s ≠ "Invalid Public Key Info") :
    SPKAC.init de be lo vf sq [] challenge exts kw
      ≠ .error ⟨.SPKAC_Decode_Error, s⟩ := by
  intro h
  by_cases h5 : ((sq.get 1).get 1).truthy = true
  · rw [init_invalid_pki de be lo vf sq challenge exts kw h2 h3 h4 h5] at h
    injection h with h'
    exact hs4 (congrArg PyExc.msg h').symm
  · have h5' : ((sq.get 1).get 1).truthy = false := by
      cases hx : ((sq.get 1).get 1).truthy
      · rfl
      · exact absurd hx h5
    rcases init_error_cases de be lo vf sq challenge exts kw h2 h3 h4 h5' _ h
      with hc | hc | hc | hc | hc
    · obtain ⟨g, c, hgc⟩ := hc
      exact challenge_mismatch_msg_long g c s hs (congrArg PyExc.msg hgc).symm
    · exact hs1 (congrArg PyExc.msg hc)
    · exact hs2 (congrArg PyExc.msg hc)
    · exact hs3 (congrArg PyExc.msg hc)
    · simp at hc

/-- C1 (counterexample): the decoder's "Invalid Public Key Info" check is
NOT governed by the key-bits sub-element of the SubjectPublicKeyInfo
inside PublicKeyAndChallenge.  `exGood` has a non-empty key-bits element
there (as every real SPKAC does) yet construction succeeds, and
`exBadParams` has an empty key-bits element there yet construction raises
exactly that error (its outer AlgorithmIdentifier second component is
non-empty, which is what line 162 actually tests). -/
theorem C1_counterexample :
    (((exGood.get 0).get 0).get 1).truthy = true ∧
    isOkE (SPKAC.init exDer exB64 exLoad exVerifyOk exGood [] none
      ([] : List Unit) []) = true ∧
    (((exBadParams.get 0).get 0).get 1).truthy = false ∧
    SPKAC.init exDer exB64 exLoad exVerifyOk exBadParams [] none
      ([] : List Unit) []
      = .error ⟨.SPKAC_Decode_Error, "Invalid Public Key Info"⟩ :=
  ⟨rfl, rfl, rfl, rfl⟩

/-- C1 (amended): for inputs passing the trailing-data and shape checks,
construction raises SPKAC_Decode_Error "Invalid Public Key Info" exactly
when the second component of element 1 of the OUTER sequence (the
signatureAlgorithm AlgorithmIdentifier's parameters, `seq [1][1]`) is
non-empty (Python-truthy); when that component is empty the check
passes. -/
theorem C1_amended {PKey Ext : Type}
    (de : Asn1 → List Nat) (be : List Nat → String) (lo : String → PKey)
    (vf : PKey → String → List Nat → List Nat → Int)
    (sq : Asn1) (challenge : Option String) (exts : List Ext) (kw : Subject)
    (h2 : sq.len = 3) (h3 : (sq.get 0).len = 2) (h4 : (sq.get 1).len = 2) :
    SPKAC.init de be lo vf sq [] challenge exts kw
        = .error ⟨.SPKAC_Decode_Error, "Invalid Public Key Info"⟩
      ↔ ((sq.get 1).get 1).truthy = true := by
  constructor
  · intro h
    by_contra hb
    have h5 : ((sq.get 1).get 1).truthy = false := by
      cases hx : ((sq.get 1).get 1).truthy
      · rfl
      · exact absurd hx hb
    rcases init_error_cases de be lo vf sq challenge exts kw h2 h3 h4 h5 _ h
      with hc | hc | hc | hc | hc
    · obtain ⟨g, c, hgc⟩ := hc
      exact challenge_mismatch_msg_long g c _ (by decide)
        (congrArg PyExc.msg hgc).symm
    · exact absurd (congrArg PyExc.msg hc) (by decide)
    · exact absurd (congrArg PyExc.msg hc) (by decide)
    · exact absurd (congrArg PyExc.msg hc) (by decide)
    · exact absurd hc (by decide)
  · intro h5
    exact init_invalid_pki de be lo vf sq challenge exts kw h2 h3 h4 h5

/-- C1 witness: the amended theorem applied at `exGood` (whose outer
AlgorithmIdentifier parameters are NULL, so the check passes). -/
theorem C1_amended_witness :
    exGood.len = 3 ∧ (exGood.get 0).len = 2 ∧ (exGood.get 1).len = 2 ∧
    ¬(SPKAC.init exDer exB64 exLoad exVerifyOk exGood [] none
        ([] : List Unit) []
      = .error ⟨.SPKAC_Decode_Error, "Invalid Public Key Info"⟩) := by
  refine ⟨rfl, rfl, rfl, fun h => ?_⟩
  have := (C1_amended exDer exB64 exLoad exVerifyOk exGood none [] []
    rfl rfl rfl).mp h
  exact absurd this (by decide)

/-- C7: construction fails with SPKAC_Decode_Error
"ASN.1 decode: data after SPKAC value" whenever DER decoding left a
non-empty remainder; with the remainder fully consumed it fails with
SPKAC_Decode_Error "Unknown SPKAC data format" unless the outer sequence
has exactly 3 elements, its element 0 exactly 2 and its element 1 exactly
2; and inputs meeting all three shape conditions with no trailing data
raise neither structural error. -/
theorem C7_structural_validation {PKey Ext : Type}
    (de : Asn1 → List Nat) (be : List Nat → String) (lo : String → PKey)
    (vf : PKey → String → List Nat → List Nat → Int)
    (sq : Asn1) (rest : List Nat) (challenge : Option String)
    (exts : List Ext) (kw : Subject) :
    (rest ≠ [] →
      SPKAC.init de be lo vf sq rest challenge exts kw
        = .error ⟨.SPKAC_Decode_Error, "ASN.1 decode: data after SPKAC value"⟩) ∧
    (rest = [] → ¬(sq.len = 3 ∧ (sq.get 0).len = 2 ∧ (sq.get 1).len = 2) →
      SPKAC.init de be lo vf sq rest challenge exts kw
        = .error ⟨.SPKAC_Decode_Error, "Unknown SPKAC data format"⟩) ∧
    (rest = [] → sq.len = 3 → (sq.get 0).len = 2 → (sq.get 1).len = 2 →
      SPKAC.init de be lo vf sq rest challenge exts kw
          ≠ .error ⟨.SPKAC_Decode_Error, "ASN.1 decode: data after SPKAC value"⟩ ∧
      SPKAC.init de be lo vf sq rest challenge exts kw
          ≠ .error ⟨.SPKAC_Decode_Error, "Unknown SPKAC data format"⟩) := by
  refine ⟨?_, ?_, ?_⟩
  · intro hr
    rw [SPKAC.init, if_pos hr]
  · intro hr hshape
    subst hr
    rw [SPKAC.init, if_neg (by simp), if_pos (by tauto)]
  · intro hr h2 h3 h4
    subst hr
    exact ⟨init_no_structural_msgs de be lo vf sq challenge exts kw h2 h3 h4 _
        (by decide) (by decide) (by decide) (by decide) (by decide),
      init_no_structural_msgs de be lo vf sq challenge exts kw h2 h3 h4 _
        (by decide) (by decide) (by decide) (by decide) (by decide)⟩

/-- C7 witness: the three parts applied at concrete inputs: trailing
bytes after `exGood`, the 2-element outer sequence `exTwoElem`, and the
well-shaped `exGood` with empty remainder. -/
theorem C7_structural_validation_witness :
    SPKAC.init exDer exB64 exLoad exVerifyOk exGood [0] none
        ([] : List Unit) []
      = .error ⟨.SPKAC_Decode_Error, "ASN.1 decode: data after SPKAC value"⟩ ∧
    SPKAC.init exDer exB64 exLoad exVerifyOk exTwoElem [] none
        ([] : List Unit) []
      = .error ⟨.SPKAC_Decode_Error, "Unknown SPKAC data format"⟩ ∧
    SPKAC.init exDer exB64 exLoad exVerifyOk exGood [] none
        ([] : List Unit) []
      ≠ .error ⟨.SPKAC_Decode_Error, "Unknown SPKAC data format"⟩ := by
  refine ⟨?_, ?_, ?_⟩
  · exact (C7_structural_validation exDer exB64 exLoad exVerifyOk exGood [0]
      none [] []).1 (by decide)
  · exact (C7_structural_validation exDer exB64 exLoad exVerifyOk exTwoElem []
      none [] []).2.1 rfl (by decide)
  · exact ((C7_structural_validation exDer exB64 exLoad exVerifyOk exGood []
      none [] []).2.2 rfl rfl rfl rfl).2

theorem foldl_push_extension {PKey Ext : Type} (L : List Ext)
    (s : SPKACState PKey Ext) :
    L.foldl SPKAC.push_extension s = { s with extensions := s.extensions ++ L } := by
  induction L generalizing s with
  | nil => simp
  | cons e t ih =>
    rw [List.foldl_cons, ih]
    simp [SPKAC.push_extension]

theorem init_ok_inversion {PKey Ext : Type}
    (de : Asn1 → List Nat) (be : List Nat → String) (lo : String → PKey)
    (vf : PKey → String → List Nat → List Nat → Int)
    (sq : Asn1) (rest : List Nat) (challenge : Option String)
    (exts : List Ext) (kw : Subject) (st : SPKACState PKey Ext)
    (h : SPKAC.init de be lo vf sq rest challenge exts kw = .ok st) :
    ∃ entry, SPKAC.signature_algorithms.find?
        (fun e => e.1 == ((sq.get 1).get 0).toTuple) = some entry ∧
      st = { signed := de (sq.get 0), spki := (sq.get 0).get 0
           , challenge := (sq.get 0).get 1
           , sig_algo := ((sq.get 1).get 0).toTuple
           , signature := (sq.get 2).as_string
           , pkey := lo (SPKAC._as_pem be (de ((sq.get 0).get 0)) "PUBLIC KEY")
           , hash := entry.2.2.2, extensions := exts, subject := kw
           , cert := none } ∧
      vf st.pkey st.hash (de (sq.get 0)) ((sq.get 2).as_string) = 1 := by
  rw [SPKAC.init] at h
  split at h
  · exact Except.noConfusion h
  · split at h
    · exact Except.noConfusion h
    · split at h
      · exact Except.noConfusion h
      · dsimp only at h
        split at h
        · exact Except.noConfusion h
        · split at h
          · exact Except.noConfusion h
          · rename_i pk heq
            rw [SPKAC._compute_public_key_] at heq
            split at heq
            · exact Except.noConfusion heq
            · rename_i entry hfind
              dsimp only at heq
              injection heq with hpk
              split at h
              · exact Except.noConfusion h
              · split at h
                · exact Except.noConfusion h
                · split at h
                  · exact Except.noConfusion h
                  · rename_i hneg0 hne0 hne1
                    subst hpk
                    injection h with hst
                    subst hst
                    refine ⟨entry, hfind, ?_, ?_⟩
                    · rw [foldl_push_extension]
                      rfl
                    · rw [foldl_push_extension]
                      exact not_not.mp hne1

/-- C2: for every successfully constructed SPKAC object the stored
signed-bytes buffer is the DER re-encoding (by the encoder collaborator,
for EVERY such encoder, hence not a slice of caller input) of the decoded
element 0, and exactly this buffer is the one the verification external
accepted. -/
theorem C2_signed_is_reencoding {PKey Ext : Type}
    (de : Asn1 → List Nat) (be : List Nat → String) (lo : String → PKey)
    (vf : PKey → String → List Nat → List Nat → Int)
    (sq : Asn1) (rest : List Nat) (challenge : Option String)
    (exts : List Ext) (kw : Subject) (st : SPKACState PKey Ext)
    (h : SPKAC.init de be lo vf sq rest challenge exts kw = .ok st) :
    st.signed = de (sq.get 0) ∧
    vf st.pkey st.hash st.signed st.signature = 1 := by
  obtain ⟨entry, hfind, hst, hvf⟩ :=
    init_ok_inversion de be lo vf sq rest challenge exts kw st h
  subst hst
  exact ⟨rfl, hvf⟩

/-- C2 witness: the theorem applied at the concrete fixture. -/
theorem C2_signed_is_reencoding_witness :
    ∃ st : SPKACState Unit Unit,
      SPKAC.init exDer exB64 exLoad exVerifyOk exGood [] none [] [] = .ok st ∧
      st.signed = exDer (exGood.get 0) ∧
      exVerifyOk st.pkey st.hash st.signed st.signature = 1 := by
  refine ⟨_, rfl, ?_⟩
  exact C2_signed_is_reencoding exDer exB64 exLoad exVerifyOk exGood [] none
    [] [] _ rfl

/-- C3: for every input reaching signature verification (structural,
key-info and challenge checks passed, the OID found in the registry), the
verifier's integer result r is mapped exactly as: r negative raises
SPKAC_Decode_Error "Error during signature verification"; r = 0 raises
SPKAC_Decode_Error "Invalid signature"; r = 1 means success (construction
completes); any other r raises a RuntimeError, an exception class
distinct from SPKAC_Decode_Error. -/
theorem C3_verify_result_mapping {PKey Ext : Type}
    (de : Asn1 → List Nat) (be : List Nat → String) (lo : String → PKey)
    (vf : PKey → String → List Nat → List Nat → Int)
    (sq : Asn1) (challenge : Option String) (exts : List Ext) (kw : Subject)
    (h2 : sq.len = 3) (h3 : (sq.get 0).len = 2) (h4 : (sq.get 1).len = 2)
    (h5 : ((sq.get 1).get 1).truthy = false)
    (h6 : SPKAC.challenge_mismatch challenge ((sq.get 0).get 1) = false)
    (entry : List Nat × String × String × String)
    (h7 : SPKAC.signature_algorithms.find?
        (fun e => e.1 == ((sq.get 1).get 0).toTuple) = some entry)
    (r : Int)
    (hr : vf (lo (SPKAC._as_pem be (de ((sq.get 0).get 0)) "PUBLIC KEY"))
        entry.2.2.2 (de (sq.get 0)) ((sq.get 2).as_string) = r) :
    (r < 0 → SPKAC.init de be lo vf sq [] challenge exts kw
      = .error ⟨.SPKAC_Decode_Error, "Error during signature verification"⟩) ∧
    (r = 0 → SPKAC.init de be lo vf sq [] challenge exts kw
      = .error ⟨.SPKAC_Decode_Error, "Invalid signature"⟩) ∧
    (r = 1 → isOkE (SPKAC.init de be lo vf sq [] challenge exts kw) = true) ∧
    (1 < r → SPKAC.init de be lo vf sq [] challenge exts kw
        = .error ⟨.runtimeError,
            "Unexpected verify_final return code: " ++ toString r⟩ ∧
      ErrKind.runtimeError ≠ ErrKind.SPKAC_Decode_Error) := by
  have hstage : SPKAC.init de be lo vf sq [] challenge exts kw =
      (if r < 0 then
        (.error ⟨.SPKAC_Decode_Error, "Error during signature verification"⟩ :
          Except PyExc (SPKACState PKey Ext))
      else if r = 0 then
        .error ⟨.SPKAC_Decode_Error, "Invalid signature"⟩
      else if r ≠ 1 then
        .error ⟨.runtimeError,
          "Unexpected verify_final return code: " ++ toString r⟩
      else
        .ok { exts.foldl SPKAC.push_extension
              { signed := de (sq.get 0), spki := (sq.get 0).get 0
              , challenge := (sq.get 0).get 1
              , sig_algo := ((sq.get 1).get 0).toTuple
              , signature := (sq.get 2).as_string
              , pkey := lo (SPKAC._as_pem be (de ((sq.get 0).get 0)) "PUBLIC KEY")
              , hash := entry.2.2.2, extensions := [], subject := []
              , cert := none } with subject := kw }) := by
    rw [SPKAC.init, if_neg (by simp), if_neg (by simp [h2, h3, h4]),
      if_neg (by simp [h5])]
    dsimp only
    rw [if_neg (by simp [h6]), SPKAC._compute_public_key_, h7]
    dsimp only
    rw [hr]
  refine ⟨?_, ?_, ?_, ?_⟩
  · intro hlt
    rw [hstage, if_pos hlt]
  · intro h0
    rw [hstage, if_neg (by omega), if_pos h0]
  · intro h1
    rw [hstage, if_neg (by omega), if_neg (by omega), if_neg (by omega)]
    rfl
  · intro hgt
    refine ⟨?_, by decide⟩
    rw [hstage, if_neg (by omega), if_neg (by omega), if_pos (by omega)]

/-- C3 witness: the theorem applied at the concrete fixture, whose
verifier external returns 1. -/
theorem C3_verify_result_mapping_witness :
    isOkE (SPKAC.init exDer exB64 exLoad exVerifyOk exGood [] none
      ([] : List Unit) []) = true := by
  exact (C3_verify_result_mapping exDer exB64 exLoad exVerifyOk exGood none
    [] [] rfl rfl rfl rfl rfl ([1, 2, 840, 113549, 1, 1, 4],
      ("RSA", "assign_rsa", "md5")) (by decide) 1 rfl).2.2.1 rfl

theorem challenge_mismatch_none (chal : Asn1) :
    SPKAC.challenge_mismatch none chal = false := rfl

theorem challenge_mismatch_empty (chal : Asn1) :
    SPKAC.challenge_mismatch (some "") chal = false := rfl

/-- C4 (counterexample): a challenge mismatch does NOT raise a distinct
ChallengeMismatchError class: at a concrete mismatching input the raised
exception is exactly the plain SPKAC_Decode_Error class — the same class
raised for an ordinary structural decode failure (shown on `exTwoElem`) —
so the caller cannot distinguish the two by exception class. -/
theorem C4_counterexample :
    errOf (SPKAC.init exDer exB64 exLoad exVerifyOk exGood []
        (some "wrong") ([] : List Unit) [])
      = some ⟨.SPKAC_Decode_Error,
          "Challenge doesn\x27t match: got \"wrong\" expect \"chal\""⟩ ∧
    (errOf (SPKAC.init exDer exB64 exLoad exVerifyOk exGood []
        (some "wrong") ([] : List Unit) [])).map PyExc.kind
      = (errOf (SPKAC.init exDer exB64 exLoad exVerifyOk exTwoElem [] none
        ([] : List Unit) [])).map PyExc.kind :=
  ⟨rfl, rfl⟩

/-- C4 (amended): when a non-empty expected challenge is supplied and
differs from the decoded challenge, construction fails with plain
SPKAC_Decode_Error (the very class used for all other decode failures,
not a distinct subtype) whose message carries both the received and the
expected value; when the challenge argument is None or the empty string,
the check is skipped entirely — the result is identical to the
no-challenge call. -/
theorem C4_amended {PKey Ext : Type}
    (de : Asn1 → List Nat) (be : List Nat → String) (lo : String → PKey)
    (vf : PKey → String → List Nat → List Nat → Int)
    (sq : Asn1) (exts : List Ext) (kw : Subject)
    (h2 : sq.len = 3) (h3 : (sq.get 0).len = 2) (h4 : (sq.get 1).len = 2)
    (h5 : ((sq.get 1).get 1).truthy = false) :
    (∀ c, c ≠ "" → ((sq.get 0).get 1).eqStr c = false →
      SPKAC.init de be lo vf sq [] (some c) exts kw
        = .error ⟨.SPKAC_Decode_Error,
            SPKAC.challenge_mismatch_msg c ((sq.get 0).get 1)⟩) ∧
    (SPKAC.init de be lo vf sq [] (some "") exts kw
      = SPKAC.init de be lo vf sq [] none exts kw) := by
  constructor
  · intro c hc heq
    rw [SPKAC.init, if_neg (by simp), if_neg (by simp [h2, h3, h4]),
      if_neg (by simp [h5])]
    dsimp only
    rw [if_pos]
    · rfl
    · rw [SPKAC.challenge_mismatch]
      have hce : c.isEmpty = false := by
        cases h : c.isEmpty
        · rfl
        · exact absurd ((String.isEmpty_iff c).mp h) hc
      simp [heq, hce]
  · simp [SPKAC.init, challenge_mismatch_none, challenge_mismatch_empty]

/-- C4 witness: the amended theorem applied at `exGood` with the
mismatching challenge "wrong". -/
theorem C4_amended_witness :
    SPKAC.init exDer exB64 exLoad exVerifyOk exGood [] (some "wrong")
        ([] : List Unit) []
      = .error ⟨.SPKAC_Decode_Error,
          SPKAC.challenge_mismatch_msg "wrong" ((exGood.get 0).get 1)⟩ := by
  exact (C4_amended exDer exB64 exLoad exVerifyOk exGood [] []
    rfl rfl rfl rfl).1 "wrong" (by decide) rfl

/-- C8: for every OID tuple other than the single pre-populated one,
key resolution fails with SPKAC_Decode_Error "Unknown signature
algorithm" (that exact exception, so never a different class); for the
pre-populated RSA-with-MD5 OID the lookup succeeds and returns the
registry's digest name "md5" together with the key loaded from the PEM
envelope of the spki. -/
theorem C8_registry_lookup {PKey : Type}
    (be : List Nat → String) (de : Asn1 → List Nat) (lo : String → PKey)
    (spki : Asn1) (sig_algo : List Nat) :
    (sig_algo ≠ [1, 2, 840, 113549, 1, 1, 4] →
      SPKAC._compute_public_key_ be de lo spki sig_algo
        = .error ⟨.SPKAC_Decode_Error, "Unknown signature algorithm"⟩) ∧
    (SPKAC._compute_public_key_ be de lo spki [1, 2, 840, 113549, 1, 1, 4]
      = .ok (lo (SPKAC._as_pem be (de spki) "PUBLIC KEY"), "md5")) := by
  constructor
  · intro hne
    rw [SPKAC._compute_public_key_]
    have hf : SPKAC.signature_algorithms.find? (fun e => e.1 == sig_algo)
        = none := by
      rw [SPKAC.signature_algorithms]
      simp only [List.find?_cons, List.find?_nil]
      have : (([1, 2, 840, 113549, 1, 1, 4] : List Nat) == sig_algo) = false := by
        cases h : ([1, 2, 840, 113549, 1, 1, 4] : List Nat) == sig_algo
        · rfl
        · exact absurd (eq_of_beq h) (fun he => hne he.symm)
      simp [this]
    rw [hf]
  · rfl

/-- C8 witness: the theorem applied at the absent OID tuple (1.3.14.3.2.26,
the hash-table OID, not in the signature registry). -/
theorem C8_registry_lookup_witness :
    SPKAC._compute_public_key_ exB64 exDer exLoad exSpki [1, 3, 14, 3, 2, 26]
      = .error ⟨.SPKAC_Decode_Error, "Unknown signature algorithm"⟩ := by
  exact (C8_registry_lookup exB64 exDer exLoad exSpki
    [1, 3, 14, 3, 2, 26]).1 (by decide)

/-- A concrete verified-object state, as `SPKAC.init` would produce on
`exGood` with the fixture externals. -/
def exState : SPKACState Unit Unit :=
  { signed := [7, 7], spki := exSpki, challenge := .str "chal"
  , sig_algo := [1, 2, 840, 113549, 1, 1, 4], signature := [9, 9]
  , pkey := (), hash := "md5", extensions := [], subject := []
  , cert := none }

/-- C5: gen_crt enforces its postconditions as assertions: when the
freshly signed certificate fails verification against the issuer key it
raises AssertionError, when the certificate reads as a CA it raises
AssertionError, and consequently every certificate gen_crt actually
returns verifies against the issuer key and has a false CA flag,
whatever extensions were pushed. -/
theorem C5_gen_crt_postconditions {PKey Ext : Type}
    (cv : Cert PKey Ext → PKey → Bool) (ck : Cert PKey Ext → Bool)
    (st : SPKACState PKey Ext) (tt tz : Int) (cap : PKey) (cas : Subject)
    (serial : Int) (nb na : Option Int) :
    (∀ c, (SPKAC.gen_crt cv ck st tt tz cap cas serial nb na).2 = .ok c →
      cv c cap = true ∧ ck c = false) ∧
    (cv (SPKAC.gen_crt_cert st tt tz cap cas serial nb na) cap = false →
      (SPKAC.gen_crt cv ck st tt tz cap cas serial nb na).2
        = .error ⟨.assertionError, "cert.verify (ca_pkey)"⟩) ∧
    (cv (SPKAC.gen_crt_cert st tt tz cap cas serial nb na) cap = true →
      ck (SPKAC.gen_crt_cert st tt tz cap cas serial nb na) = true →
      (SPKAC.gen_crt cv ck st tt tz cap cas serial nb na).2
        = .error ⟨.assertionError, "not cert.check_ca ()"⟩) := by
  refine ⟨?_, ?_, ?_⟩
  · intro c h
    rw [SPKAC.gen_crt] at h
    split at h
    · exact Except.noConfusion h
    · split at h
      · exact Except.noConfusion h
      · rename_i hv hc
        injection h with h'
        subst h'
        constructor
        · cases hx : cv (SPKAC.gen_crt_cert st tt tz cap cas serial nb na) cap
          · exact absurd hx hv
          · rfl
        · cases hx : ck (SPKAC.gen_crt_cert st tt tz cap cas serial nb na)
          · rfl
          · exact absurd hx hc
  · intro hfail
    rw [SPKAC.gen_crt]
    rw [if_pos hfail]
  · intro hok hca
    rw [SPKAC.gen_crt]
    rw [if_neg (by simp [hok]), if_pos hca]

/-- C5 witness: the first part applied at a concrete call whose external
verify reports success and whose CA check reports false. -/
theorem C5_gen_crt_postconditions_witness :
    (fun (_ : Cert Unit Unit) (_ : Unit) => true)
        (SPKAC.gen_crt_cert exState 0 0 () [] 1 none none) () = true ∧
    (fun (_ : Cert Unit Unit) => false)
        (SPKAC.gen_crt_cert exState 0 0 () [] 1 none none) = false := by
  exact (C5_gen_crt_postconditions (fun _ _ => true) (fun _ => false) exState
    0 0 () [] 1 none none).1 _ rfl

/-- C6 (counterexample): with `long (time.time ()) = 1000` and
`time.timezone = 3600`, an omitted not_before defaults to 4600 — current
time shifted by the timezone offset, not the current time 1000 — and an
explicitly supplied not_before of 0 (a valid absolute timestamp, but
Python-falsy) is overridden by the same default instead of being set on
the certificate. -/
theorem C6_counterexample :
    (SPKAC.gen_crt (fun (_ : Cert Unit Unit) (_ : Unit) => true)
        (fun _ => false) exState 1000 3600 () [] 1 none none).1.cert.map
        Cert.not_before = some 4600 ∧
    (1000 : Int) ≠ 4600 ∧
    (SPKAC.gen_crt (fun (_ : Cert Unit Unit) (_ : Unit) => true)
        (fun _ => false) exState 1000 3600 () [] 1 (some 0) none).1.cert.map
        Cert.not_before = some 4600 ∧
    (0 : Int) ≠ 4600 :=
  ⟨rfl, by decide, rfl, by decide⟩

/-- C6 (amended): the certificate gen_crt caches and returns takes its
validity from the source's defaulting rule: a not_before that is absent
or 0 (Python-falsy) defaults to `long (time.time ()) + time.timezone`;
a not_after that is absent or 0 defaults to the effective not_before
plus 365 days (60*60*24*365 s); supplied non-zero timestamps are set
unchanged. -/
theorem C6_amended {PKey Ext : Type}
    (cv : Cert PKey Ext → PKey → Bool) (ck : Cert PKey Ext → Bool)
    (st : SPKACState PKey Ext) (tt tz : Int) (cap : PKey) (cas : Subject)
    (serial : Int) (nb na : Option Int) :
    (SPKAC.gen_crt cv ck st tt tz cap cas serial nb na).1.cert
      = some (SPKAC.gen_crt_cert st tt tz cap cas serial nb na) ∧
    (∀ v : Int, v ≠ 0 → nb = some v →
      (SPKAC.gen_crt_cert st tt tz cap cas serial nb na).not_before = v) ∧
    ((nb = none ∨ nb = some 0) →
      (SPKAC.gen_crt_cert st tt tz cap cas serial nb na).not_before = tt + tz) ∧
    (∀ w : Int, w ≠ 0 → na = some w →
      (SPKAC.gen_crt_cert st tt tz cap cas serial nb na).not_after = w) ∧
    ((na = none ∨ na = some 0) →
      (SPKAC.gen_crt_cert st tt tz cap cas serial nb na).not_after
        = (SPKAC.gen_crt_cert st tt tz cap cas serial nb na).not_before
          + 60 * 60 * 24 * 365) := by
  refine ⟨?_, ?_, ?_, ?_, ?_⟩
  · rw [SPKAC.gen_crt]
    split
    · rfl
    · split
      · rfl
      · rfl
  · intro v hv hnb
    subst hnb
    simp [SPKAC.gen_crt_cert, pyFalsyIntOpt, hv]
  · intro hnb
    rcases hnb with h | h <;> subst h <;>
      simp [SPKAC.gen_crt_cert, pyFalsyIntOpt]
  · intro w hw hna
    subst hna
    simp [SPKAC.gen_crt_cert, pyFalsyIntOpt, hw]
  · intro hna
    rcases hna with h | h <;> subst h <;>
      simp [SPKAC.gen_crt_cert, pyFalsyIntOpt]

/-- C6 witness: the amended theorem applied at a concrete call with an
explicit non-zero not_before and an omitted not_after. -/
theorem C6_amended_witness :
    (SPKAC.gen_crt_cert exState 1000 3600 () [] 1 (some 5) none).not_before
        = 5 ∧
    (SPKAC.gen_crt_cert exState 1000 3600 () [] 1 (some 5) none).not_after
      = (SPKAC.gen_crt_cert exState 1000 3600 () [] 1
          (some 5) none).not_before + 60 * 60 * 24 * 365 := by
  have h := C6_amended (fun (_ : Cert Unit Unit) (_ : Unit) => true)
    (fun _ => false) exState 1000 3600 () [] 1 (some 5) none
  exact ⟨h.2.1 5 (by decide) rfl, h.2.2.2.2 (Or.inl rfl)⟩

/-- C9: extension order is preserved end to end: positional extensions
supplied at construction are pushed in order, later push_extension calls
append after them, and the certificate gen_crt produces carries exactly
that list in that order, with no deduplication or reordering. -/
theorem C9_extension_order {PKey Ext : Type}
    (de : Asn1 → List Nat) (be : List Nat → String) (lo : String → PKey)
    (vf : PKey → String → List Nat → List Nat → Int)
    (sq : Asn1) (rest : List Nat) (challenge : Option String) (kw : Subject)
    (E P : List Ext) (st : SPKACState PKey Ext)
    (h : SPKAC.init de be lo vf sq rest challenge E kw = .ok st)
    (cv : Cert PKey Ext → PKey → Bool) (ck : Cert PKey Ext → Bool)
    (tt tz : Int) (cap : PKey) (cas : Subject) (serial : Int)
    (nb na : Option Int) (c : Cert PKey Ext)
    (hc : (SPKAC.gen_crt cv ck (P.foldl SPKAC.push_extension st)
        tt tz cap cas serial nb na).1.cert = some c) :
    c.extensions = E ++ P := by
  obtain ⟨entry, hfind, hst, hvf⟩ :=
    init_ok_inversion de be lo vf sq rest challenge E kw st h
  subst hst
  rw [foldl_push_extension, SPKAC.gen_crt] at hc
  split at hc
  · injection hc with hcc
    rw [← hcc]
    rfl
  · split at hc
    · injection hc with hcc
      rw [← hcc]
      rfl
    · injection hc with hcc
      rw [← hcc]
      rfl

/-- C9 witness: constructing with positional extensions [1, 2], pushing
[3, 4] afterwards, and issuing yields extension list [1, 2, 3, 4]. -/
theorem C9_extension_order_witness :
    ∃ (st : SPKACState Unit Nat) (c : Cert Unit Nat),
      SPKAC.init exDer exB64 exLoad exVerifyOk exGood [] none [1, 2] []
        = .ok st ∧
      (SPKAC.gen_crt (fun _ _ => true) (fun _ => false)
          ([3, 4].foldl SPKAC.push_extension st) 0 0 () [] 1 none
          none).1.cert = some c ∧
      c.extensions = [1, 2] ++ [3, 4] := by
  refine ⟨_, _, rfl, rfl, ?_⟩
  exact C9_extension_order exDer exB64 exLoad exVerifyOk exGood [] none []
    [1, 2] [3, 4] _ rfl (fun _ _ => true) (fun _ => false) 0 0 () [] 1
    none none _ rfl

/-- C10: frame property of gen_crt: the updated object state equals the
old state with only the cert attribute replaced by the newly built
certificate (overwriting any prior cached one); every other attribute is
untouched, and whenever gen_crt returns a certificate it is exactly the
cached one. -/
theorem C10_gen_crt_frame {PKey Ext : Type}
    (cv : Cert PKey Ext → PKey → Bool) (ck : Cert PKey Ext → Bool)
    (st : SPKACState PKey Ext) (tt tz : Int) (cap : PKey) (cas : Subject)
    (serial : Int) (nb na : Option Int) :
    (SPKAC.gen_crt cv ck st tt tz cap cas serial nb na).1
      = { st with
          cert := some (SPKAC.gen_crt_cert st tt tz cap cas serial nb na) } ∧
    ∀ c, (SPKAC.gen_crt cv ck st tt tz cap cas serial nb na).2 = .ok c →
      c = SPKAC.gen_crt_cert st tt tz cap cas serial nb na := by
  constructor
  · rw [SPKAC.gen_crt]
    split
    · rfl
    · split
      · rfl
      · rfl
  · intro c h
    rw [SPKAC.gen_crt] at h
    split at h
    · exact Except.noConfusion h
    · split at h
      · exact Except.noConfusion h
      · injection h with h'
        exact h'.symm

/-- C10 witness: the frame theorem applied at a concrete call with a
previously cached certificate, which is overwritten. -/
theorem C10_gen_crt_frame_witness :
    (SPKAC.gen_crt (fun (_ : Cert Unit Unit) (_ : Unit) => true)
        (fun _ => false)
        { exState with
          cert := some (SPKAC.gen_crt_cert exState 9 9 () [] 9 none none) }
        0 0 () [] 1 none none).1
      = { exState with
          cert := some (SPKAC.gen_crt_cert
            { exState with
              cert := some (SPKAC.gen_crt_cert exState 9 9 () [] 9 none none) }
            0 0 () [] 1 none none) } ∧
    SPKAC.gen_crt_cert exState 0 0 () [] 1 none none
      = SPKAC.gen_crt_cert exState 0 0 () [] 1 none none := by
  constructor
  · exact (C10_gen_crt_frame (fun _ _ => true) (fun _ => false)
      { exState with
        cert := some (SPKAC.gen_crt_cert exState 9 9 () [] 9 none none) }
      0 0 () [] 1 none none).1
  · exact (C10_gen_crt_frame (fun _ _ => true) (fun _ => false) exState
      0 0 () [] 1 none none).2 _ rfl
